import Mathlib

/-!
# Verification of the python interpreter discovery core

Shallow embedding of `src/python_interpreter.rs`: interpreter metadata
probing, platform sanity checking, ABI-flag resolution, PEP 425 tag and
shared-library-suffix generation, and the discovery loop `find_all`.

Modelling conventions:
* `usize` fields become `Nat`; `Option<String>` becomes `Option String`;
  `PathBuf` is kept as the `String` it is built from (`PathBuf::from`).
* The compile-time facts `Target::os()`, `Target::arch()`, `Target::env()`
  and `Target::pointer_width()` are gathered in a `Target` structure that is
  passed explicitly, so that all host branches can be stated.
* `Result<T, failure::Error>` becomes `Except String T`, the error being the
  `bail!` message; `.context(msg)` wrapping is modelled as prefixing
  `msg ++ ": "` is not needed for `?` on serde (which keeps only the
  context), and for `fun_with_abiflags` the context string is prefixed with
  `": "` before the inner message.
* `panic!` (an uncatchable process abort, not an error value) is modelled by
  the dedicated constructor `PanicOr.panic`, kept distinct from any
  `Except.error` value so that aborts and reportable failures cannot be
  conflated.
* Spawning a child process and parsing its stdout with serde_json are host
  interactions; they are modelled by an oracle `env : String → ProbeResult`
  giving, per candidate executable, the outcome at the decision points the
  source actually inspects: an io error (not-found or other), or a completed
  process with its exit status and the result of JSON-parsing its stdout.
  Everything after those decision points is translated from the source.
-/

/-- The output format of the embedded probe script, mirroring the Rust
struct `IntepreterMetadataMessage` (sic): `major`/`minor` versions, the
optional `abiflags` string, the three build-flag booleans `m`/`u`/`d`, and
the reported `platform` label. -/
structure IntepreterMetadataMessage where
  major : Nat
  minor : Nat
  abiflags : Option String
  m : Bool
  u : Bool
  d : Bool
  platform : String
deriving DecidableEq, Repr

/-- Compile-time host facts of the build tool, mirroring `target_info::Target`:
`Target::os()`, `Target::arch()`, `Target::env()`, `Target::pointer_width()`. -/
structure Target where
  os : String
  arch : String
  env : String
  pointer_width : String
deriving DecidableEq, Repr

/-- The location and version of an interpreter, mirroring the Rust struct
`PythonInterpreter`. -/
structure PythonInterpreter where
  major : Nat
  minor : Nat
  abiflags : String
  target : String
  executable : String
deriving DecidableEq, Repr

/-- Outcome of a Rust function that either returns a value or `panic!`s.
`panic` is an uncatchable program abort carrying the panic message; it is a
different thing from an `Except.error` value, which a caller can inspect. -/
inductive PanicOr (α : Type) where
  | panic (msg : String)
  | ok (val : α)
deriving DecidableEq, Repr

instance {ε α : Type} [DecidableEq ε] [DecidableEq α] : DecidableEq (Except ε α) := fun x y =>
  match x, y with
  | Except.ok a, Except.ok b =>
    if h : a = b then Decidable.isTrue (by rw [h])
    else Decidable.isFalse (fun hc => h (Except.ok.inj hc))
  | Except.ok _, Except.error _ => Decidable.isFalse (fun hc => Except.noConfusion hc)
  | Except.error _, Except.ok _ => Decidable.isFalse (fun hc => Except.noConfusion hc)
  | Except.error e, Except.error f =>
    if h : e = f then Decidable.isTrue (by rw [h])
    else Decidable.isFalse (fun hc => h (Except.error.inj hc))

/-- `fn fun_with_abiflags(message: &IntepreterMetadataMessage) -> Result<String, Error>`,
translated line by line; `Target::os()` is read from the explicit `tgt`. -/
def fun_with_abiflags (message : IntepreterMetadataMessage) (tgt : Target) :
    Except String String :=
  if message.major = 2 then
    let abiflags :=
      (if message.m then "m" else "") ++ (if message.u then "u" else "") ++
        (if message.d then "d" else "")
    if message.abiflags.isSome then
      Except.error "A python 2 interpreter does not define abiflags in its sysconfig ಠ_ಠ"
    else if abiflags ≠ "" ∧ tgt.os = "windows" then
      Except.error "A python 2 interpreter on windows does not define abiflags in its sysconfig ಠ_ಠ"
    else
      Except.ok abiflags
  else if message.major = 3 ∧ message.minor ≥ 5 then
    if tgt.os = "windows" then
      if message.abiflags.isSome then
        Except.error "A python 3 interpreter on windows does not define abiflags in its sysconfig ಠ_ಠ"
      else
        Except.ok ""
    else if tgt.os = "linux" ∨ tgt.os = "macos" then
      match message.abiflags with
      | some abiflags =>
        if abiflags ≠ "m" then
          Except.error "A python 3 interpreter on linux or mac os must have 'm' as abiflags ಠ_ಠ"
        else
          Except.ok abiflags
      | none =>
        Except.error "A python 3 interpreter on linux or mac os must define abiflags in its sysconfig ಠ_ಠ"
    else
      Except.error "I'm running on a platform that is neither window, nor linux, nor mac os ಠ_ಠ"
  else
    Except.error "Only python 2.7 and python 3.x are supported"

/-- The `sane_platform` match inside `check_platform_sanity`, with the
or-patterns of the Rust `match` spelled as disjunctions. -/
def sane_platform (message : IntepreterMetadataMessage) (tgt : Target) : Bool :=
  if message.platform = "win32" ∨ message.platform = "win_amd64" then
    tgt.os == "windows"
  else if message.platform = "linux" ∨ message.platform = "linux2" ∨ message.platform = "linux3" then
    tgt.os == "linux"
  else if message.platform = "darwin" then
    tgt.os == "macos"
  else
    false

/-- The `PlatformMismatch` message, naming both the reported label and the
host identifier, as built by the `bail!` format string. -/
def platform_mismatch_msg (message : IntepreterMetadataMessage) (tgt : Target) : String :=
  "sys.platform in python, " ++ message.platform ++
    ", and Target::os() in rust, " ++ tgt.os ++ ", don't match ಠ_ಠ"

/-- `fn check_platform_sanity(message: &IntepreterMetadataMessage) -> Result<(), Error>`. -/
def check_platform_sanity (message : IntepreterMetadataMessage) (tgt : Target) :
    Except String Unit :=
  if !(sane_platform message tgt) then
    Except.error (platform_mismatch_msg message tgt)
  else
    Except.ok ()

/-- The `format!("cp{major}{minor}-cp{major}{minor}{abiflags}-{platform}")`
call at the end of `get_tag`. -/
def tag_format (self : PythonInterpreter) (platform : String) : String :=
  "cp" ++ toString self.major ++ toString self.minor ++ "-cp" ++
    toString self.major ++ toString self.minor ++ self.abiflags ++ "-" ++ platform

/-- The fixed macos platform tag string of `get_tag` (the five historical
variants joined by "."). -/
def macosPlatformTag : String :=
  "macosx_10_6_intel.macosx_10_9_intel.macosx_10_9_x86_64.macosx_10_10_intel.macosx_10_10_x86_64"

/-- `PythonInterpreter::get_tag`. The Rust `match self.target` with a
`panic!` default arm becomes an if-chain ending in `PanicOr.panic`; the
windows arm reads `Target::pointer_width()` from `tgt`. -/
def get_tag (self : PythonInterpreter) (tgt : Target) : PanicOr String :=
  if self.target = "linux" then
    PanicOr.ok (tag_format self "manylinux1_x86_64")
  else if self.target = "macos" then
    PanicOr.ok (tag_format self macosPlatformTag)
  else if self.target = "windows" then
    PanicOr.ok (tag_format self (if tgt.pointer_width = "64" then "win_amd64" else "win32"))
  else
    PanicOr.panic "This platform is not supported"

/-- `PythonInterpreter::get_library_extension`: early return `".so"` for
major 2, then the same `match self.target` shape as `get_tag`, with the
linux arm's `{os}` being `format!("{}-{}", Target::os(), Target::env())`. -/
def get_library_extension (self : PythonInterpreter) (tgt : Target) : PanicOr String :=
  if self.major = 2 then
    PanicOr.ok ".so"
  else if self.target = "linux" then
    PanicOr.ok (".cpython-" ++ toString self.major ++ toString self.minor ++ self.abiflags ++
      "-" ++ tgt.arch ++ "-" ++ (tgt.os ++ "-" ++ tgt.env) ++ ".so")
  else if self.target = "macos" then
    PanicOr.ok (".cpython-" ++ toString self.major ++ toString self.minor ++ self.abiflags ++
      "-darwin.so")
  else if self.target = "windows" then
    PanicOr.ok (".cp" ++ toString self.major ++ toString self.minor ++ "-" ++
      (if tgt.pointer_width = "64" then "win_amd64" else "win32") ++ ".pyd")
  else
    PanicOr.panic "This platform is not supported"

/-- Classification of an `io::Error` returned by `Command::output()`: only
`io::ErrorKind::NotFound` is treated specially by the source. -/
inductive IoErrorKind where
  | notFound
  | other
deriving DecidableEq, Repr

/-- Outcome of running one candidate executable with the probe script, at
the decision points the source inspects: `spawnError` is an `Err` from
`Command::output()`; `output success parsed` is an `Ok` with the exit
status' `success()` bit and the result of `serde_json::from_slice` on the
captured stdout (`none` meaning the bytes were not a well-formed matching
JSON document). -/
inductive ProbeResult where
  | spawnError (kind : IoErrorKind)
  | output (success : Bool) (parsed : Option IntepreterMetadataMessage)
deriving DecidableEq, Repr

/-- The body of the `for executable in python_versions` loop of
`PythonInterpreter::find_all`, for one candidate: `Except.ok none` is the
`continue` on a not-found spawn error, `Except.ok (some record)` the
successful push, `Except.error` any `bail!`/`?` propagation. The error
message `err_msg` and both `.context(...)` wrappings follow the source. -/
def process_candidate (tgt : Target) (env : String → ProbeResult) (executable : String) :
    Except String (Option PythonInterpreter) :=
  let err_msg := "Trying to get metadata from the python interpreter " ++ executable ++ " failed"
  match env executable with
  | ProbeResult.spawnError IoErrorKind.notFound => Except.ok none
  | ProbeResult.spawnError IoErrorKind.other => Except.error err_msg
  | ProbeResult.output success parsed =>
    if success then
      match parsed with
      | none => Except.error err_msg
      | some message =>
        match check_platform_sanity message tgt with
        | Except.error e => Except.error e
        | Except.ok _ =>
          match fun_with_abiflags message tgt with
          | Except.error e =>
            Except.error ("Failed to get information from the python interpreter: " ++ e)
          | Except.ok abiflags =>
            Except.ok (some { major := message.major, minor := message.minor,
                              abiflags := abiflags, target := tgt.os,
                              executable := executable })
    else Except.error err_msg

/-- The loop of `find_all` with its `available_versions` accumulator. -/
def find_all_loop (tgt : Target) (env : String → ProbeResult)
    (acc : List PythonInterpreter) : List String → Except String (List PythonInterpreter)
  | [] => Except.ok acc
  | executable :: rest =>
    match process_candidate tgt env executable with
    | Except.error e => Except.error e
    | Except.ok none => find_all_loop tgt env acc rest
    | Except.ok (some record) => find_all_loop tgt env (acc ++ [record]) rest

/-- `PythonInterpreter::find_all(python_versions: &[String])`. -/
def find_all (tgt : Target) (env : String → ProbeResult) (python_versions : List String) :
    Except String (List PythonInterpreter) :=
  find_all_loop tgt env [] python_versions

/-- Whether an `Except` is an error (a hard probe failure, as opposed to a
resolved record or an absent-skip). -/
def isError {ε α : Type} : Except ε α → Bool
  | Except.error _ => true
  | Except.ok _ => false

/-- What one candidate contributes to the output list when it does not fail
hard: its resolved record, or nothing when it is absent. -/
def resolve_outcome (tgt : Target) (env : String → ProbeResult) (executable : String) :
    Option PythonInterpreter :=
  match process_candidate tgt env executable with
  | Except.ok o => o
  | Except.error _ => none

/-! Concrete fixtures used to exercise the theorems on explicit inputs. -/

/-- A 64-bit x86_64 glibc linux build host. -/
def linuxTarget : Target :=
  { os := "linux", arch := "x86_64", env := "gnu", pointer_width := "64" }

/-- A 64-bit windows build host. -/
def windowsTarget : Target :=
  { os := "windows", arch := "x86_64", env := "msvc", pointer_width := "64" }

/-- A build host whose OS is outside {linux, macos, windows}. -/
def freebsdTarget : Target :=
  { os := "freebsd", arch := "x86_64", env := "gnu", pointer_width := "64" }

/-- Probe output of a healthy python 2.7 (wide-unicode, pymalloc) on linux. -/
def msg27 : IntepreterMetadataMessage :=
  { major := 2, minor := 7, abiflags := none, m := true, u := true, d := false,
    platform := "linux2" }

/-- Probe output of a healthy python 3.6 on linux. -/
def msg36 : IntepreterMetadataMessage :=
  { major := 3, minor := 6, abiflags := some "m", m := true, u := false, d := false,
    platform := "linux" }

/-- Probe output of a python 2.7 debug build (m and d set, u clear). -/
def msg27md : IntepreterMetadataMessage :=
  { major := 2, minor := 7, abiflags := none, m := true, u := false, d := true,
    platform := "linux" }

/-- Probe output reporting platform "win32". -/
def msgWin32 : IntepreterMetadataMessage :=
  { major := 3, minor := 6, abiflags := none, m := true, u := false, d := false,
    platform := "win32" }

/-- Probe output reporting platform "darwin". -/
def msgDarwin : IntepreterMetadataMessage :=
  { major := 3, minor := 6, abiflags := some "m", m := true, u := false, d := false,
    platform := "darwin" }

/-- The record `find_all` builds for `msg27` found as "python2.7" on linux. -/
def rec27 : PythonInterpreter :=
  { major := 2, minor := 7, abiflags := "mu", target := "linux", executable := "python2.7" }

/-- The record `find_all` builds for `msg36` found as "python3.6" on linux. -/
def rec36 : PythonInterpreter :=
  { major := 3, minor := 6, abiflags := "m", target := "linux", executable := "python3.6" }

/-- A resolved-looking record whose target OS is outside the supported set. -/
def rec36freebsd : PythonInterpreter :=
  { major := 3, minor := 6, abiflags := "m", target := "freebsd", executable := "python3.6" }

/-- A python 2 record on an OS outside the supported set. -/
def rec27solaris : PythonInterpreter :=
  { major := 2, minor := 7, abiflags := "mu", target := "solaris", executable := "python2.7" }

/-- Probe environment where "python2.7" and "python3.6" resolve and every
other name is absent (spawn fails with not-found). -/
def probeEnvOk : String → ProbeResult := fun s =>
  if s = "python2.7" then ProbeResult.output true (some msg27)
  else if s = "python3.6" then ProbeResult.output true (some msg36)
  else ProbeResult.spawnError IoErrorKind.notFound

/-- Probe environment like `probeEnvOk` except that "badpython" runs
successfully but prints something that is not well-formed metadata JSON. -/
def probeEnvParseFail : String → ProbeResult := fun s =>
  if s = "python2.7" then ProbeResult.output true (some msg27)
  else if s = "badpython" then ProbeResult.output true none
  else if s = "python3.6" then ProbeResult.output true (some msg36)
  else ProbeResult.spawnError IoErrorKind.notFound

/-! Helper lemmas shared across several claims. -/

theorem check_ok_iff_sane (message : IntepreterMetadataMessage) (tgt : Target) :
    check_platform_sanity message tgt = Except.ok () ↔ sane_platform message tgt = true := by
  unfold check_platform_sanity
  cases h : sane_platform message tgt <;> simp [h]

theorem sane_os_mem (message : IntepreterMetadataMessage) (tgt : Target)
    (h : sane_platform message tgt = true) :
    tgt.os = "windows" ∨ tgt.os = "linux" ∨ tgt.os = "macos" := by
  unfold sane_platform at h
  split_ifs at h with h1 h2 h3
  · exact Or.inl (beq_iff_eq.mp h)
  · exact Or.inr (Or.inl (beq_iff_eq.mp h))
  · exact Or.inr (Or.inr (beq_iff_eq.mp h))

theorem sane_iff_mapping (message : IntepreterMetadataMessage) (tgt : Target) :
    sane_platform message tgt = true ↔
      (((message.platform = "win32" ∨ message.platform = "win_amd64") ∧ tgt.os = "windows") ∨
       ((message.platform = "linux" ∨ message.platform = "linux2" ∨
          message.platform = "linux3") ∧ tgt.os = "linux") ∨
       (message.platform = "darwin" ∧ tgt.os = "macos")) := by
  constructor
  · intro hsane
    unfold sane_platform at hsane
    split_ifs at hsane with h1 h2 h3
    · exact Or.inl ⟨h1, beq_iff_eq.mp hsane⟩
    · exact Or.inr (Or.inl ⟨h2, beq_iff_eq.mp hsane⟩)
    · exact Or.inr (Or.inr ⟨h3, beq_iff_eq.mp hsane⟩)
  · intro hd
    unfold sane_platform
    rcases hd with ⟨hp, hos⟩ | ⟨hp, hos⟩ | ⟨hp, hos⟩
    · rcases hp with h | h <;> rw [h, hos] <;> decide
    · rcases hp with h | h | h <;> rw [h, hos] <;> decide
    · rw [hp, hos]; decide

/-- C4: for a major-2 record with the optional abiflags field absent, the
resolver concatenates "m", "u", "d" in that fixed order from the three build
flags; any subset succeeds on linux and macos (shown for "md" with m and d
set), while on windows a non-empty concatenation fails with the
AbiFlagViolation message. -/
theorem python2_abiflags_assembled (message : IntepreterMetadataMessage) (tgt : Target)
    (hmaj : message.major = 2) (habi : message.abiflags = none) :
    ((tgt.os = "linux" ∨ tgt.os = "macos") →
      fun_with_abiflags message tgt =
        Except.ok ((if message.m then "m" else "") ++ (if message.u then "u" else "") ++
          (if message.d then "d" else ""))) ∧
    (tgt.os = "windows" →
      ((if message.m then "m" else "") ++ (if message.u then "u" else "") ++
          (if message.d then "d" else "")) ≠ "" →
      fun_with_abiflags message tgt =
        Except.error
          "A python 2 interpreter on windows does not define abiflags in its sysconfig ಠ_ಠ") := by
  constructor
  · intro hos
    have hnw : ¬(tgt.os = "windows") := by
      rcases hos with h | h <;> rw [h] <;> decide
    simp [fun_with_abiflags, hmaj, habi, hnw]
  · intro hos hne
    simp [fun_with_abiflags, hmaj, habi, hos, hne]

/-- Witness for C4: m=true, u=false, d=true with abiflags absent resolves to
"md" on a linux host, and the same flags are rejected on a windows host. -/
theorem python2_abiflags_assembled_witness :
    fun_with_abiflags msg27md linuxTarget = Except.ok "md" ∧
    fun_with_abiflags msg27md windowsTarget =
      Except.error
        "A python 2 interpreter on windows does not define abiflags in its sysconfig ಠ_ಠ" := by
  have h1 := (python2_abiflags_assembled msg27md linuxTarget (by decide) (by decide)).1
    (Or.inl (by decide))
  have h2 := (python2_abiflags_assembled msg27md windowsTarget (by decide) (by decide)).2
    (by decide) (by decide)
  exact ⟨h1.trans (by decide), h2⟩

/-- C5: for a major-2 record whose optional abiflags field is present (any
value, including the empty string), the resolver fails with the
AbiFlagViolation message, on every host OS. -/
theorem python2_abiflags_present_rejected (message : IntepreterMetadataMessage) (tgt : Target)
    (hmaj : message.major = 2) (hsome : message.abiflags.isSome = true) :
    fun_with_abiflags message tgt =
      Except.error "A python 2 interpreter does not define abiflags in its sysconfig ಠ_ಠ" := by
  simp [fun_with_abiflags, hmaj, hsome]

/-- Witness for C5: a major-2 message carrying abiflags "" is rejected, here
on a linux host. -/
theorem python2_abiflags_present_rejected_witness :
    fun_with_abiflags
        { major := 2, minor := 7, abiflags := some "", m := true, u := true, d := false,
          platform := "linux2" } linuxTarget =
      Except.error "A python 2 interpreter does not define abiflags in its sysconfig ಠ_ಠ" :=
  python2_abiflags_present_rejected _ linuxTarget (by decide) (by decide)

/-- C6: for a major-3 record with minor ≥ 5: on windows, absence of the
optional abiflags field resolves to "" and presence fails; on linux or
macos, the field must be present and exactly "m" (which resolves to "m"),
while absence or any other value fails with the AbiFlagViolation message. -/
theorem python3_abiflags_rules (message : IntepreterMetadataMessage) (tgt : Target)
    (hmaj : message.major = 3) (hmin : 5 ≤ message.minor) :
    (tgt.os = "windows" → message.abiflags = none →
      fun_with_abiflags message tgt = Except.ok "") ∧
    (tgt.os = "windows" → ∀ s, message.abiflags = some s →
      fun_with_abiflags message tgt =
        Except.error
          "A python 3 interpreter on windows does not define abiflags in its sysconfig ಠ_ಠ") ∧
    ((tgt.os = "linux" ∨ tgt.os = "macos") → message.abiflags = some "m" →
      fun_with_abiflags message tgt = Except.ok "m") ∧
    ((tgt.os = "linux" ∨ tgt.os = "macos") → message.abiflags = none →
      fun_with_abiflags message tgt =
        Except.error
          "A python 3 interpreter on linux or mac os must define abiflags in its sysconfig ಠ_ಠ") ∧
    ((tgt.os = "linux" ∨ tgt.os = "macos") → ∀ s, message.abiflags = some s → s ≠ "m" →
      fun_with_abiflags message tgt =
        Except.error
          "A python 3 interpreter on linux or mac os must have 'm' as abiflags ಠ_ಠ") := by
  have hnot2 : ¬(message.major = 2) := by rw [hmaj]; decide
  refine ⟨?_, ?_, ?_, ?_, ?_⟩
  · intro hw habi
    simp [fun_with_abiflags, hnot2, hmaj, hmin, hw, habi]
  · intro hw s habi
    simp [fun_with_abiflags, hnot2, hmaj, hmin, hw, habi]
  · intro hos habi
    have hnw : ¬(tgt.os = "windows") := by
      rcases hos with h | h <;> rw [h] <;> decide
    simp [fun_with_abiflags, hnot2, hmaj, hmin, hnw, hos, habi]
  · intro hos habi
    have hnw : ¬(tgt.os = "windows") := by
      rcases hos with h | h <;> rw [h] <;> decide
    simp [fun_with_abiflags, hnot2, hmaj, hmin, hnw, hos, habi]
  · intro hos s habi hne
    have hnw : ¬(tgt.os = "windows") := by
      rcases hos with h | h <;> rw [h] <;> decide
    simp [fun_with_abiflags, hnot2, hmaj, hmin, hnw, hos, habi, hne]

/-- Witness for C6: python 3.6 on linux with abiflags "m" resolves to "m";
with abiflags "mu" or absent it is rejected; on windows absence gives ""
and presence of "m" is rejected. -/
theorem python3_abiflags_rules_witness :
    fun_with_abiflags msg36 linuxTarget = Except.ok "m" ∧
    fun_with_abiflags
        { major := 3, minor := 6, abiflags := some "mu", m := true, u := true, d := false,
          platform := "linux" } linuxTarget =
      Except.error "A python 3 interpreter on linux or mac os must have 'm' as abiflags ಠ_ಠ" ∧
    fun_with_abiflags
        { major := 3, minor := 6, abiflags := none, m := true, u := false, d := false,
          platform := "linux" } linuxTarget =
      Except.error
        "A python 3 interpreter on linux or mac os must define abiflags in its sysconfig ಠ_ಠ" ∧
    fun_with_abiflags
        { major := 3, minor := 6, abiflags := none, m := true, u := false, d := false,
          platform := "win32" } windowsTarget = Except.ok "" := by
  refine ⟨?_, ?_, ?_, ?_⟩
  · exact (python3_abiflags_rules msg36 linuxTarget (by decide) (by decide)).2.2.1
      (Or.inl (by decide)) (by decide)
  · exact (python3_abiflags_rules _ linuxTarget (by decide) (by decide)).2.2.2.2
      (Or.inl (by decide)) "mu" (by decide) (by decide)
  · exact (python3_abiflags_rules _ linuxTarget (by decide) (by decide)).2.2.2.1
      (Or.inl (by decide)) (by decide)
  · exact (python3_abiflags_rules _ windowsTarget (by decide) (by decide)).1
      (by decide) (by decide)

/-- C7: a record whose version is outside the supported set — major 3 with
minor < 5, or major neither 2 nor 3 — is rejected with the
UnsupportedInterpreterVersion message, on every host OS and regardless of
the other fields. -/
theorem unsupported_version_rejected (message : IntepreterMetadataMessage) (tgt : Target)
    (hver : (message.major = 3 ∧ message.minor < 5) ∨
      (message.major ≠ 2 ∧ message.major ≠ 3)) :
    fun_with_abiflags message tgt =
      Except.error "Only python 2.7 and python 3.x are supported" := by
  rcases hver with ⟨h3, hlt⟩ | ⟨h2, h3⟩
  · have hnot2 : ¬(message.major = 2) := by rw [h3]; decide
    have hnot5 : ¬(5 ≤ message.minor) := Nat.not_le.mpr hlt
    simp [fun_with_abiflags, hnot2, h3, hnot5]
  · simp [fun_with_abiflags, h2, h3]

/-- Witness for C7: python 3.4 is rejected on a linux host. -/
theorem unsupported_version_rejected_witness :
    fun_with_abiflags
        { major := 3, minor := 4, abiflags := some "m", m := true, u := false, d := false,
          platform := "linux" } linuxTarget =
      Except.error "Only python 2.7 and python 3.x are supported" :=
  unsupported_version_rejected _ linuxTarget (Or.inl (by decide))

/-- C8: the platform sanity check passes exactly when the reported label and
the compiled-in host OS match the mapping win32/win_amd64 ⇒ windows,
linux/linux2/linux3 ⇒ linux, darwin ⇒ macos; every other combination fails
with the PlatformMismatch message naming both the label and the host. -/
theorem check_platform_sanity_spec (message : IntepreterMetadataMessage) (tgt : Target) :
    (check_platform_sanity message tgt = Except.ok () ↔
      (((message.platform = "win32" ∨ message.platform = "win_amd64") ∧
          tgt.os = "windows") ∨
       ((message.platform = "linux" ∨ message.platform = "linux2" ∨
          message.platform = "linux3") ∧ tgt.os = "linux") ∨
       (message.platform = "darwin" ∧ tgt.os = "macos"))) ∧
    (check_platform_sanity message tgt = Except.ok () ∨
      check_platform_sanity message tgt =
        Except.error (platform_mismatch_msg message tgt)) := by
  constructor
  · rw [check_ok_iff_sane, sane_iff_mapping]
  · cases h : sane_platform message tgt with
    | false => right; simp [check_platform_sanity, h]
    | true => left; simp [check_platform_sanity, h]

/-- Witness for C8: reported "win32" with host windows passes; reported
"darwin" with host windows fails with the PlatformMismatch message. -/
theorem check_platform_sanity_spec_witness :
    check_platform_sanity msgWin32 windowsTarget = Except.ok () ∧
    check_platform_sanity msgDarwin windowsTarget =
      Except.error
        "sys.platform in python, darwin, and Target::os() in rust, windows, don't match ಠ_ಠ" := by
  constructor
  · exact (check_platform_sanity_spec msgWin32 windowsTarget).1.mpr
      (Or.inl ⟨Or.inl (by decide), by decide⟩)
  · have h := (check_platform_sanity_spec msgDarwin windowsTarget).2
    rcases h with h | h
    · exact absurd ((check_platform_sanity_spec msgDarwin windowsTarget).1.mp h) (by decide)
    · exact h.trans (by decide)

/-- C9: the compatibility tag is
cp{major}{minor}-cp{major}{minor}{abiflags}-{platform_tag}, with
platform_tag the fixed manylinux1_x86_64 baseline on linux, the fixed
five-part macosx compatibility string on macos, and win_amd64 (64-bit
pointer width) or win32 (otherwise) on windows. -/
theorem get_tag_format_spec (self : PythonInterpreter) (tgt : Target) :
    (self.target = "linux" →
      get_tag self tgt = PanicOr.ok
        ("cp" ++ toString self.major ++ toString self.minor ++ "-cp" ++
          toString self.major ++ toString self.minor ++ self.abiflags ++ "-" ++
          "manylinux1_x86_64")) ∧
    (self.target = "macos" →
      get_tag self tgt = PanicOr.ok
        ("cp" ++ toString self.major ++ toString self.minor ++ "-cp" ++
          toString self.major ++ toString self.minor ++ self.abiflags ++ "-" ++
          "macosx_10_6_intel.macosx_10_9_intel.macosx_10_9_x86_64.macosx_10_10_intel.macosx_10_10_x86_64")) ∧
    (self.target = "windows" →
      get_tag self tgt = PanicOr.ok
        ("cp" ++ toString self.major ++ toString self.minor ++ "-cp" ++
          toString self.major ++ toString self.minor ++ self.abiflags ++ "-" ++
          (if tgt.pointer_width = "64" then "win_amd64" else "win32"))) := by
  refine ⟨?_, ?_, ?_⟩
  · intro h
    simp [get_tag, tag_format, h]
  · intro h
    have hnl : ¬(self.target = "linux") := by rw [h]; decide
    simp [get_tag, tag_format, macosPlatformTag, h, hnl]
  · intro h
    have hnl : ¬(self.target = "linux") := by rw [h]; decide
    have hnm : ¬(self.target = "macos") := by rw [h]; decide
    simp [get_tag, tag_format, h, hnl, hnm]

/-- Witness for C9: the record (major=3, minor=6, abiflags="m", host=linux)
yields exactly "cp36-cp36m-manylinux1_x86_64". -/
theorem get_tag_format_spec_witness :
    get_tag rec36 linuxTarget = PanicOr.ok "cp36-cp36m-manylinux1_x86_64" := by
  have h := (get_tag_format_spec rec36 linuxTarget).1 (by decide)
  exact h.trans (by decide)

/-- C10: a raw metadata record accepted by the platform sanity check forces
the compiled-in host OS to be windows, linux, or macos, so the ABI
resolver's unsupported-platform branch for major-3 interpreters can never
be reached for that record after the sanity check. -/
theorem sanity_precludes_unsupported_platform (message : IntepreterMetadataMessage)
    (tgt : Target) (h : check_platform_sanity message tgt = Except.ok ()) :
    (tgt.os = "windows" ∨ tgt.os = "linux" ∨ tgt.os = "macos") ∧
      fun_with_abiflags message tgt ≠
        Except.error
          "I'm running on a platform that is neither window, nor linux, nor mac os ಠ_ಠ" := by
  have hos := sane_os_mem message tgt ((check_ok_iff_sane message tgt).mp h)
  refine ⟨hos, ?_⟩
  intro hbad
  unfold fun_with_abiflags at hbad
  rcases hos with hw | hl | hm <;>
    cases habi : message.abiflags <;>
      rw [habi] at hbad <;>
        split_ifs at hbad <;>
          simp_all <;>
            split_ifs at hbad <;> simp_all

/-- Witness for C10: the healthy python 3.6 linux probe passes the sanity
check on a linux host, and its ABI resolution does not hit the
unsupported-platform branch. -/
theorem sanity_precludes_unsupported_platform_witness :
    (linuxTarget.os = "windows" ∨ linuxTarget.os = "linux" ∨ linuxTarget.os = "macos") ∧
      fun_with_abiflags msg36 linuxTarget ≠
        Except.error
          "I'm running on a platform that is neither window, nor linux, nor mac os ಠ_ಠ" :=
  sanity_precludes_unsupported_platform msg36 linuxTarget (by decide)

/-- C2 counterexample: on a record whose host OS is "freebsd" (outside
{linux, macos, windows}), both generators hit the `panic!` arm: the outcome
is the uncatchable abort `PanicOr.panic "This platform is not supported"`,
not a reportable tagged error value (the return type of both generators has
no error variant at all). -/
theorem get_tag_panics_not_error :
    get_tag rec36freebsd freebsdTarget = PanicOr.panic "This platform is not supported" ∧
    get_library_extension rec36freebsd freebsdTarget =
      PanicOr.panic "This platform is not supported" := by
  decide

/-- C2 amended: when the tag generator is applied to a record whose host OS
is outside {linux, macos, windows} it aborts with the panic
"This platform is not supported" (an uncatchable program abort, not a
reportable UnsupportedPlatform error value); the suffix generator does the
same unless the record has major version 2, in which case it returns ".so"
without ever looking at the host OS. -/
theorem unsupported_target_panics (self : PythonInterpreter) (tgt : Target)
    (h1 : self.target ≠ "linux") (h2 : self.target ≠ "macos")
    (h3 : self.target ≠ "windows") :
    get_tag self tgt = PanicOr.panic "This platform is not supported" ∧
    (self.major ≠ 2 →
      get_library_extension self tgt = PanicOr.panic "This platform is not supported") ∧
    (self.major = 2 → get_library_extension self tgt = PanicOr.ok ".so") := by
  refine ⟨?_, ?_, ?_⟩
  · simp [get_tag, h1, h2, h3]
  · intro hmaj
    simp [get_library_extension, hmaj, h1, h2, h3]
  · intro hmaj
    simp [get_library_extension, hmaj]

/-- Witness for C2 amended: a python 2.7 record on host "solaris" panics in
the tag generator but still gets the ".so" suffix. -/
theorem unsupported_target_panics_witness :
    get_tag rec27solaris freebsdTarget = PanicOr.panic "This platform is not supported" ∧
    get_library_extension rec27solaris freebsdTarget = PanicOr.ok ".so" := by
  have h := unsupported_target_panics rec27solaris freebsdTarget
    (by decide) (by decide) (by decide)
  exact ⟨h.1, h.2.2 (by decide)⟩

theorem find_all_loop_fail_fast (tgt : Target) (env : String → ProbeResult)
    (xs : List String) (x : String) (ys : List String) (e : String)
    (hclean : ∀ a ∈ xs, isError (process_candidate tgt env a) = false)
    (hx : process_candidate tgt env x = Except.error e) :
    ∀ acc, find_all_loop tgt env acc (xs ++ x :: ys) = Except.error e := by
  induction xs with
  | nil =>
    intro acc
    simp [find_all_loop, hx]
  | cons a as ih =>
    intro acc
    have ha := hclean a (List.mem_cons_self a as)
    have has : ∀ b ∈ as, isError (process_candidate tgt env b) = false := fun b hb =>
      hclean b (List.mem_cons_of_mem a hb)
    cases hpa : process_candidate tgt env a with
    | error e2 => rw [hpa] at ha; simp [isError] at ha
    | ok o =>
      cases o with
      | none => simpa [find_all_loop, hpa] using ih has acc
      | some r => simpa [find_all_loop, hpa] using ih has (acc ++ [r])

/-- C1: if some candidate — after all earlier ones were either skipped as
absent or resolved — produces a hard failure (non-zero exit, non-not-found
spawn error, JSON parse failure, platform sanity failure, or ABI
resolution failure, i.e. `process_candidate` returns an error), then
`find_all` returns exactly that failure and no records at all: records
already resolved for the earlier candidates are discarded. -/
theorem find_all_fail_fast (tgt : Target) (env : String → ProbeResult)
    (xs : List String) (x : String) (ys : List String) (e : String)
    (hclean : ∀ a ∈ xs, isError (process_candidate tgt env a) = false)
    (hx : process_candidate tgt env x = Except.error e) :
    find_all tgt env (xs ++ x :: ys) = Except.error e :=
  find_all_loop_fail_fast tgt env xs x ys e hclean hx []

/-- Witness for C1: the second candidate "badpython" runs but prints
unparsable output; discovery over three candidates (the first and third of
which would resolve) reports only the parse failure of "badpython". -/
theorem find_all_fail_fast_witness :
    find_all linuxTarget probeEnvParseFail ["python2.7", "badpython", "python3.6"] =
      Except.error "Trying to get metadata from the python interpreter badpython failed" :=
  find_all_fail_fast linuxTarget probeEnvParseFail ["python2.7"] "badpython" ["python3.6"]
    "Trying to get metadata from the python interpreter badpython failed"
    (by decide) (by decide)

theorem find_all_loop_ok (tgt : Target) (env : String → ProbeResult)
    (versions : List String)
    (hclean : ∀ a ∈ versions, isError (process_candidate tgt env a) = false) :
    ∀ acc, find_all_loop tgt env acc versions =
      Except.ok (acc ++ versions.filterMap (resolve_outcome tgt env)) := by
  induction versions with
  | nil => intro acc; simp [find_all_loop]
  | cons a as ih =>
    intro acc
    have ha := hclean a (List.mem_cons_self a as)
    have has : ∀ b ∈ as, isError (process_candidate tgt env b) = false := fun b hb =>
      hclean b (List.mem_cons_of_mem a hb)
    cases hpa : process_candidate tgt env a with
    | error e2 => rw [hpa] at ha; simp [isError] at ha
    | ok o =>
      cases o with
      | none =>
        have hro : resolve_outcome tgt env a = none := by simp [resolve_outcome, hpa]
        simp [find_all_loop, hpa, hro, ih has acc]
      | some r =>
        have hro : resolve_outcome tgt env a = some r := by simp [resolve_outcome, hpa]
        rw [List.filterMap_cons, hro]
        simp only [find_all_loop, hpa]
        rw [ih has (acc ++ [r])]
        simp

/-- C3: a candidate whose spawn fails with not-found is classified as
absent — it contributes neither an error nor an output record — and when no
candidate fails hard, `find_all` returns exactly the resolved records of
the remaining candidates in their relative input order. -/
theorem find_all_skips_absent_preserves_order (tgt : Target) (env : String → ProbeResult)
    (versions : List String)
    (hclean : ∀ a ∈ versions, isError (process_candidate tgt env a) = false) :
    (∀ a, env a = ProbeResult.spawnError IoErrorKind.notFound →
      process_candidate tgt env a = Except.ok none ∧ resolve_outcome tgt env a = none) ∧
    find_all tgt env versions = Except.ok (versions.filterMap (resolve_outcome tgt env)) := by
  constructor
  · intro a hnf
    constructor
    · simp [process_candidate, hnf]
    · simp [resolve_outcome, process_candidate, hnf]
  · simpa using find_all_loop_ok tgt env versions hclean []

/-- Witness for C3: over ["python2.7", "does-not-exist", "python3.6"] with
the second name absent and the others resolving, the result is exactly the
two records of the first and third candidate, in that order. -/
theorem find_all_skips_absent_preserves_order_witness :
    find_all linuxTarget probeEnvOk ["python2.7", "does-not-exist", "python3.6"] =
      Except.ok [rec27, rec36] := by
  have h := (find_all_skips_absent_preserves_order linuxTarget probeEnvOk
    ["python2.7", "does-not-exist", "python3.6"] (by decide)).2
  exact h.trans (by decide)
